import Mathlib

/-!
Verification of the FluxMarket classifieds backend (`src/main.py`, `src/schemas.py`).

The persistence layer is modelled as explicit record lists per collection; every
handler becomes a pure function from a `Store` (and a request body) to a result,
with mutating handlers also returning the successor `Store`.  Fallible handlers
return `Except HTTPError _`, mirroring `raise HTTPException(...)`.
-/

namespace FluxMarket

/-- `bson.ObjectId.is_valid` on a string: exactly 24 hexadecimal digits. -/
def isValidObjectId (s : String) : Bool :=
  s.data.length == 24 &&
    s.data.all (fun c => c.isDigit || ('a' ≤ c && c ≤ 'f') || ('A' ≤ c && c ≤ 'F'))

/-! ### Case-insensitive regular-expression search

`list_listings` builds the title clause `{"$regex": q, "$options": "i"}`
(main.py line 92): an unanchored, case-insensitive regular-expression search.
Only a fragment of the PCRE pattern language is modelled: literal characters
and the any-character metacharacter.  Anchors, quantifiers, character classes,
alternation, grouping and escapes are outside the fragment, so every statement
about the clause is scoped, by hypothesis, to patterns inside the fragment; a
separate literal matcher expresses plain substring containment for
comparison. -/

/-- One pattern character against one text character: the any-character
metacharacter matches everything except a newline, other characters match up
to case. -/
def charPatMatches (p c : Char) : Bool :=
  (p == '.' && !(c == '\n')) || p.toLower == c.toLower

/-- Does the pattern match a prefix of the text? -/
def patMatchesAt : List Char → List Char → Bool
  | [], _ => true
  | _ :: _, [] => false
  | p :: ps, c :: cs => charPatMatches p c && patMatchesAt ps cs

/-- Unanchored search: does the pattern match at some position of the text? -/
def patSearch (pat : List Char) : List Char → Bool
  | [] => patMatchesAt pat []
  | c :: cs => patMatchesAt pat (c :: cs) || patSearch pat cs

/-- The `$regex` clause with the `i` option, on strings. -/
def regexMatchI (pat text : String) : Bool :=
  patSearch pat.data text.data

/-- One literal pattern character against one text character (case-insensitive). -/
def charLitMatches (p c : Char) : Bool :=
  p.toLower == c.toLower

/-- Literal (substring) prefix match, case-insensitive. -/
def litMatchesAt : List Char → List Char → Bool
  | [], _ => true
  | _ :: _, [] => false
  | p :: ps, c :: cs => charLitMatches p c && litMatchesAt ps cs

/-- Literal (substring) search, case-insensitive. -/
def litSearch (pat : List Char) : List Char → Bool
  | [] => litMatchesAt pat []
  | c :: cs => litMatchesAt pat (c :: cs) || litSearch pat cs

/-- Case-insensitive substring containment: the spec's "plain containment". -/
def containsCI (pat text : String) : Bool :=
  litSearch pat.data text.data

/-- Characters that are special in a regular-expression pattern, including the
brace-quantifier delimiters (written as the code points 123 and 125). -/
def isRegexMeta (c : Char) : Bool :=
  c == '.' || c == '^' || c == '$' || c == '*' || c == '+' || c == '?' ||
    c == '(' || c == ')' || c == '[' || c == ']' || c == '|' || c == '\\' ||
    c.toNat == 123 || c.toNat == 125

/-! ### Stored documents (collections `user`, `listing`, `message`, `saved`)

Field layout follows `src/schemas.py`, plus the store-assigned `_id`.  The
source's `price: float` is never computed with by any handler modelled here, so
it is carried as an integer-valued field.  `created_at` on messages: the
`Message` schema itself has no timestamp field; `main.py` sorts threads on
`created_at`, which the spec (sections 3 and 4.5) says is a server-assigned
creation timestamp added on insertion by the persistence layer. -/

structure UserDoc where
  _id : String
  name : String
  email : String
  password_hash : String
  avatar_url : Option String
  location : Option String
  is_active : Bool
deriving Repr, DecidableEq

structure ListingDoc where
  _id : String
  user_id : String
  title : String
  description : String
  price : Int
  category : String
  listing_type : String
  location : Option String
  images : List String
  status : String
deriving Repr, DecidableEq

structure MessageDoc where
  _id : String
  listing_id : String
  from_user_id : String
  to_user_id : String
  content : String
  read : Bool
  created_at : Nat
deriving Repr, DecidableEq

structure SavedDoc where
  _id : String
  user_id : String
  listing_id : String
deriving Repr, DecidableEq

/-! ### Response records

Each handler runs `d["id"] = str(d.pop("_id"))` on every returned document:
the internal `_id` is renamed to a public `id`, all other fields unchanged. -/

structure ListingOut where
  id : String
  user_id : String
  title : String
  description : String
  price : Int
  category : String
  listing_type : String
  location : Option String
  images : List String
  status : String
deriving Repr, DecidableEq

structure MessageOut where
  id : String
  listing_id : String
  from_user_id : String
  to_user_id : String
  content : String
  read : Bool
  created_at : Nat
deriving Repr, DecidableEq

structure SavedOut where
  id : String
  user_id : String
  listing_id : String
deriving Repr, DecidableEq

def listingOut (d : ListingDoc) : ListingOut :=
  ⟨d._id, d.user_id, d.title, d.description, d.price, d.category, d.listing_type,
    d.location, d.images, d.status⟩

def messageOut (d : MessageDoc) : MessageOut :=
  ⟨d._id, d.listing_id, d.from_user_id, d.to_user_id, d.content, d.read, d.created_at⟩

def savedOut (d : SavedDoc) : SavedOut :=
  ⟨d._id, d.user_id, d.listing_id⟩

/-- `raise HTTPException(status_code=..., detail=...)`. -/
structure HTTPError where
  status_code : Nat
  detail : String
deriving Repr, DecidableEq

/-- The persistence collaborator's state: one record list per collection.
`counter` drives identifier assignment and `clock` is the server clock read
when a message is stamped. -/
structure Store where
  user : List UserDoc
  listing : List ListingDoc
  message : List MessageDoc
  saved : List SavedDoc
  counter : Nat
  clock : Nat
deriving Repr, DecidableEq

/-- Modelled from the spec: `create_document` lives in `database.py`, which is
not under `src/`; per spec section 6 the store's `insert(record)` returns an
assigned opaque unique identifier.  Modelled as a token derived from the
store's insertion counter. -/
def assignedId (n : Nat) : String :=
  "oid" ++ toString n

/-- `hashlib.sha256(...).hexdigest()`: an external hash.  No claim depends on
the hash value; modelled as an injective tagging function. -/
def sha256 (text : String) : String :=
  "sha256:" ++ text

/-! ### Request bodies (`pydantic` models in `main.py`) -/

structure RegisterBody where
  name : String
  email : String
  password : String
  location : Option String
deriving Repr, DecidableEq

structure CreateListingBody where
  user_id : String
  title : String
  description : String
  price : Int
  category : String
  listing_type : String
  location : Option String
  images : Option (List String)
deriving Repr, DecidableEq

structure SaveBody where
  user_id : String
  listing_id : String
deriving Repr, DecidableEq

structure SendMessageBody where
  listing_id : String
  from_user_id : String
  to_user_id : String
  content : String
deriving Repr, DecidableEq

/-! ### Response shapes -/

structure IdResult where
  id : String
deriving Repr, DecidableEq

structure RegisterResult where
  id : String
  name : String
  email : String
deriving Repr, DecidableEq

/-- `save_listing` answers either `{"id": ...}` (created) or
`{"status": "already_saved"}` (no-op): two distinguishable shapes. -/
inductive SaveResult where
  | created (id : String)
  | already_saved
deriving Repr, DecidableEq

/-! ### Handlers -/

/-- `POST /api/auth/register` (main.py lines 48-64).  The duplicate-email
check precedes the `UserSchema(...)` construction, so the error path is exact.
On the success path `schemas.User` additionally validates the email against
pydantic's external `EmailStr` grammar; that grammar is not modelled, and no
claim depends on the success path of this handler. -/
def register (s : Store) (body : RegisterBody) : Except HTTPError RegisterResult × Store :=
  match s.user.find? (fun u => u.email == body.email) with
  | some _ => (.error ⟨400, "Email already registered"⟩, s)
  | none =>
    let u : UserDoc :=
      ⟨assignedId s.counter, body.name, body.email, sha256 body.password,
        none, body.location, true⟩
    (.ok ⟨assignedId s.counter, body.name, body.email⟩,
      { s with user := s.user ++ [u], counter := s.counter + 1 })

/-- The filter `list_listings` builds (main.py lines 87-92).  `if category:`
and `if q:` in Python skip the clause on `None` and on the empty string alike,
so each clause degenerates to `true` in those cases. -/
def listingFilter (q category : Option String) (d : ListingDoc) : Bool :=
  d.status == "active" &&
    (match category with
     | some c => (c == "") || (d.category == c)
     | none => true) &&
    (match q with
     | some qs => (qs == "") || regexMatchI qs d.title
     | none => true)

/-- `GET /api/listings` (main.py lines 85-98). -/
def list_listings (s : Store) (q category : Option String) (limit : Nat) : List ListingOut :=
  ((s.listing.filter (listingFilter q category)).take limit).map listingOut

/-- `pydantic.HttpUrl`, an external-library grammar: modelled as an absolute
URL with an explicit http or https scheme and a nonempty remainder.  The
claims evaluate it only on the empty image list, where the model is exact. -/
def isHttpUrl (s : String) : Bool :=
  ("http://".isPrefixOf s && decide (7 < s.length)) ||
    ("https://".isPrefixOf s && decide (8 < s.length))

/-- The constraints `schemas.Listing` enforces when `ListingSchema(...)` is
constructed at main.py line 109: `title` at most 140 characters, `description`
at most 5000, `price >= 0`, every image a valid URL.  `listing_type` is
pre-normalized into its enum by the handler and `status` is the literal
"active", so those two constraints always pass. -/
def listingSchemaValid (b : CreateListingBody) : Bool :=
  decide (b.title.length ≤ 140) && decide (b.description.length ≤ 5000) &&
    decide (0 ≤ b.price) && (b.images.getD []).all isHttpUrl

/-- `POST /api/listings` (main.py lines 100-121).  A body violating the
`schemas.Listing` constraints makes the `ListingSchema(...)` construction
raise a pydantic `ValidationError` after the owner checks and before any
insert; FastAPI surfaces the uncaught exception as a 500 response, modelled
as `HTTPError 500 "ValidationError"`. -/
def create_listing (s : Store) (body : CreateListingBody) : Except HTTPError IdResult × Store :=
  if !(isValidObjectId body.user_id) then
    (.error ⟨400, "Invalid user id"⟩, s)
  else
    match s.user.find? (fun u => u._id == body.user_id) with
    | none => (.error ⟨404, "User not found"⟩, s)
    | some _ =>
      if !(listingSchemaValid body) then
        (.error ⟨500, "ValidationError"⟩, s)
      else
      let d : ListingDoc :=
        ⟨assignedId s.counter, body.user_id, body.title, body.description, body.price,
          body.category,
          (if ["sale", "service", "rent"].contains body.listing_type
           then body.listing_type else "sale"),
          body.location, body.images.getD [], "active"⟩
      (.ok ⟨assignedId s.counter⟩,
        { s with listing := s.listing ++ [d], counter := s.counter + 1 })

/-- `POST /api/saved` (main.py lines 129-140). -/
def save_listing (s : Store) (body : SaveBody) : Except HTTPError SaveResult × Store :=
  if !(isValidObjectId body.user_id && isValidObjectId body.listing_id) then
    (.error ⟨400, "Invalid ids"⟩, s)
  else
    match s.saved.find? (fun e => e.user_id == body.user_id && e.listing_id == body.listing_id) with
    | some _ => (.ok .already_saved, s)
    | none =>
      let e : SavedDoc := ⟨assignedId s.counter, body.user_id, body.listing_id⟩
      (.ok (.created (assignedId s.counter)),
        { s with saved := s.saved ++ [e], counter := s.counter + 1 })

/-- `GET /api/saved/{user_id}` (main.py lines 142-151). -/
def get_saved (s : Store) (user_id : String) : Except HTTPError (List SavedOut) :=
  if !(isValidObjectId user_id) then
    .error ⟨400, "Invalid user id"⟩
  else
    .ok ((s.saved.filter (fun e => e.user_id == user_id)).map savedOut)

/-- `POST /api/messages` (main.py lines 161-177).  `schemas.Message` enforces
`content` at most 5000 characters when `MessageSchema(...)` is constructed at
main.py line 169 — after both guards, before any insert — raising a pydantic
`ValidationError` (surfaced as a 500) otherwise.  The message document is
stamped with the server clock: `created_at` assignment is modelled from the
spec (section 4.5), since `create_document` is outside `src/`. -/
def send_message (s : Store) (body : SendMessageBody) : Except HTTPError IdResult × Store :=
  if !(isValidObjectId body.listing_id && isValidObjectId body.from_user_id &&
        isValidObjectId body.to_user_id) then
    (.error ⟨400, "Invalid ids"⟩, s)
  else
    match s.listing.find? (fun d => d._id == body.listing_id) with
    | none => (.error ⟨404, "Listing not found"⟩, s)
    | some _ =>
      if !(decide (body.content.length ≤ 5000)) then
        (.error ⟨500, "ValidationError"⟩, s)
      else
      let m : MessageDoc :=
        ⟨assignedId s.counter, body.listing_id, body.from_user_id, body.to_user_id,
          body.content, false, s.clock⟩
      (.ok ⟨assignedId s.counter⟩,
        { s with message := s.message ++ [m], counter := s.counter + 1 })

/-- Ascending order on the `created_at` field: the key of
`.sort("created_at", 1)`. -/
def createdLe (x y : MessageDoc) : Prop :=
  x.created_at ≤ y.created_at

instance : DecidableRel createdLe := fun x y => Nat.decLe x.created_at y.created_at

instance : IsTotal MessageDoc createdLe := ⟨fun x y => Nat.le_total x.created_at y.created_at⟩

instance : IsTrans MessageDoc createdLe := ⟨fun _ _ _ => Nat.le_trans⟩

/-- The thread filter (main.py lines 184-190): same listing, and the two users
in either direction. -/
def threadFilter (listing_id a b : String) (m : MessageDoc) : Bool :=
  m.listing_id == listing_id &&
    ((m.from_user_id == a && m.to_user_id == b) ||
      (m.from_user_id == b && m.to_user_id == a))

/-- `GET /api/messages/thread` (main.py lines 179-195).  `.sort("created_at", 1)`
asks the store for ascending `created_at` order with no secondary key; the
store's tie order is modelled as its natural (insertion) order, i.e. a stable
sort. -/
def get_thread (s : Store) (listing_id a b : String) (limit : Nat) :
    Except HTTPError (List MessageOut) :=
  if !(isValidObjectId listing_id && isValidObjectId a && isValidObjectId b) then
    .error ⟨400, "Invalid ids"⟩
  else
    .ok (((List.insertionSort createdLe
        (s.message.filter (threadFilter listing_id a b))).take limit).map messageOut)

/-! ### Identifier ordering

A deterministic total order on identifier strings (lexicographic on character
codes), used to state the spec's "ties broken by identifier ordering". -/

def charLtNat (x y : Char) : Bool :=
  x.toNat < y.toNat

def charsLt : List Char → List Char → Bool
  | [], [] => false
  | [], _ :: _ => true
  | _ :: _, [] => false
  | x :: xs, y :: ys => charLtNat x y || (x == y && charsLt xs ys)

def idLt (x y : String) : Bool :=
  charsLt x.data y.data

/-! ### Helper lemmas -/

theorem listingOut_injective : Function.Injective listingOut := by
  intro x y h
  cases x
  cases y
  simpa [listingOut] using h

theorem patMatchesAt_eq_lit :
    ∀ (pat s : List Char), (∀ c ∈ pat, isRegexMeta c = false) →
      patMatchesAt pat s = litMatchesAt pat s
  | [], _, _ => rfl
  | _ :: _, [], _ => rfl
  | p :: ps, c :: cs, h => by
    have hp : isRegexMeta p = false := h p (List.mem_cons_self p ps)
    have hdot : (p == '.') = false := by
      cases hpd : p == '.' with
      | false => rfl
      | true =>
        exfalso
        have hpe : p = '.' := by simpa using hpd
        rw [hpe] at hp
        simp [isRegexMeta] at hp
    have ih := patMatchesAt_eq_lit ps cs (fun x hx => h x (List.mem_cons_of_mem p hx))
    simp [patMatchesAt, litMatchesAt, charPatMatches, charLitMatches, hdot, ih]

theorem patSearch_eq_lit (pat : List Char) (h : ∀ c ∈ pat, isRegexMeta c = false) :
    ∀ s : List Char, patSearch pat s = litSearch pat s
  | [] => by simp [patSearch, litSearch, patMatchesAt_eq_lit pat [] h]
  | c :: cs => by
    simp [patSearch, litSearch, patMatchesAt_eq_lit pat (c :: cs) h,
      patSearch_eq_lit pat h cs]

/-- On patterns free of regex metacharacters, the `$regex` clause is exactly
case-insensitive substring containment. -/
theorem regexMatchI_eq_containsCI (q t : String) (h : ∀ c ∈ q.data, isRegexMeta c = false) :
    regexMatchI q t = containsCI q t :=
  patSearch_eq_lit q.data h t.data

/-! ### Concrete fixtures for witnesses and counterexamples -/

def emptyStore : Store := ⟨[], [], [], [], 0, 0⟩

def oidA : String := "aaaaaaaaaaaaaaaaaaaaaaaa"
def oidB : String := "bbbbbbbbbbbbbbbbbbbbbbbb"
def oidC : String := "cccccccccccccccccccccccc"
def oid1 : String := "aaaaaaaaaaaaaaaaaaaaaaa1"
def oid2 : String := "aaaaaaaaaaaaaaaaaaaaaaa2"

/-- Two thread messages with colliding timestamps, stored with the
larger identifier first. -/
def c1msg2 : MessageDoc := ⟨oid2, oidA, oidB, oidC, "hi", false, 100⟩

def c1msg1 : MessageDoc := ⟨oid1, oidA, oidB, oidC, "yo", false, 100⟩

def c1store : Store := ⟨[], [], [c1msg2, c1msg1], [], 2, 0⟩

/-- An active listing whose title does not contain the literal text "a.c". -/
def c2listing : ListingDoc := ⟨oidB, oidA, "abc", "plain", 5, "books", "sale", none, [], "active"⟩

def c2store : Store := ⟨[], [c2listing], [], [], 1, 0⟩

def c2wListing : ListingDoc := ⟨oidB, oidA, "Hello", "plain", 5, "books", "sale", none, [], "active"⟩

def c2wStore : Store := ⟨[], [c2wListing], [], [], 1, 0⟩

/-- An active listing whose category is not the empty string. -/
def c7listing : ListingDoc := ⟨oidB, oidA, "Lamp", "warm", 3, "books", "sale", none, [], "active"⟩

def c7store : Store := ⟨[], [c7listing], [], [], 1, 0⟩

def c8user : UserDoc := ⟨oidA, "Ann", "a@x.com", sha256 "pw", none, none, true⟩

def c8store : Store := ⟨[c8user], [], [], [], 1, 0⟩

def c8body : RegisterBody := ⟨"Bob", "a@x.com", "pw2", none⟩

def c9user : UserDoc := ⟨oidA, "Ann", "ann@x.com", sha256 "pw", none, none, true⟩

def c9store : Store := ⟨[c9user], [], [], [], 1, 0⟩

/-- A create-listing request whose `listing_type` is outside the enum. -/
def c9body : CreateListingBody := ⟨oidA, "Chair", "Oak chair", 30, "furniture", "lease", none, none⟩

/-- A create-listing request with a well-formed, existing owner and an
out-of-enum `listing_type`, but a negative price — violating the
`schemas.Listing` constraint `price >= 0`. -/
def c9xbody : CreateListingBody := ⟨oidA, "Chair", "Oak chair", -1, "furniture", "lease", none, none⟩

/-! ### Claims -/

/-- Claim C1 (amended): a successful `get_thread` answer is sorted ascending by
creation timestamp and capped at `limit`. -/
theorem C1_thread_sorted_capped (s : Store) (L a b : String) (lim : Nat)
    (out : List MessageOut) (h : get_thread s L a b lim = .ok out) :
    (out.Pairwise fun x y => x.created_at ≤ y.created_at) ∧ out.length ≤ lim := by
  unfold get_thread at h
  by_cases hv : (!(isValidObjectId L && isValidObjectId a && isValidObjectId b)) = true
  · rw [if_pos hv] at h
    cases h
  · rw [if_neg hv] at h
    injection h with h'
    subst h'
    constructor
    · apply List.pairwise_map.mpr
      have hs : (List.insertionSort createdLe
          (s.message.filter (threadFilter L a b))).Pairwise createdLe :=
        List.sorted_insertionSort createdLe _
      exact hs.sublist (List.take_sublist lim _)
    · simp [List.length_map, List.length_take]

theorem C1_witness :
    (([messageOut c1msg2, messageOut c1msg1] : List MessageOut).Pairwise
      fun x y => x.created_at ≤ y.created_at) ∧
    ([messageOut c1msg2, messageOut c1msg1] : List MessageOut).length ≤ 50 :=
  C1_thread_sorted_capped c1store oidA oidB oidC 50 [messageOut c1msg2, messageOut c1msg1] (by rfl)

/-- Claim C1, counterexample to the claim as stated: two thread messages share
a creation timestamp, the store holds the larger identifier first, and
`get_thread` returns them in store order — not in identifier order. -/
theorem C1_counterexample :
    get_thread c1store oidA oidB oidC 50 = .ok [messageOut c1msg2, messageOut c1msg1] ∧
    (messageOut c1msg2).created_at = (messageOut c1msg1).created_at ∧
    idLt (messageOut c1msg1).id (messageOut c1msg2).id = true :=
  ⟨by rfl, by rfl, by decide⟩

/-- Claim C2 (amended): with a non-empty `q` and no category, `list_listings`
returns (up to the cap) exactly the active listings whose title matches `q` as
a case-insensitive unanchored regular expression — not plain containment — and
only for patterns free of regex metacharacters does the match coincide with
case-insensitive substring containment.  The statement is scoped by `_hfrag` to
the modelled pattern fragment (literal characters and the any-character
metacharacter); for patterns using other PCRE constructs the embedding makes
no assertion. -/
theorem C2_q_is_regex_not_containment (s : Store) (q : String) (lim : Nat) (d : ListingDoc)
    (hq : q ≠ "")
    (_hfrag : ∀ c ∈ q.data, c = '.' ∨ isRegexMeta c = false)
    (hlim : (s.listing.filter (listingFilter (some q) none)).length ≤ lim)
    (hd : d ∈ s.listing) :
    (listingOut d ∈ list_listings s (some q) none lim ↔
      (d.status = "active" ∧ regexMatchI q d.title = true)) ∧
    ((∀ c ∈ q.data, isRegexMeta c = false) → ∀ t : String, regexMatchI q t = containsCI q t) := by
  constructor
  · unfold list_listings
    rw [List.take_of_length_le hlim]
    constructor
    · intro hm
      obtain ⟨d', hd', he⟩ := List.mem_map.mp hm
      obtain rfl := listingOut_injective he
      have hp := (List.mem_filter.mp hd').2
      unfold listingFilter at hp
      simp [hq] at hp
      exact ⟨hp.1, hp.2⟩
    · intro ⟨h1, h2⟩
      apply List.mem_map.mpr
      refine ⟨d, List.mem_filter.mpr ⟨hd, ?_⟩, rfl⟩
      unfold listingFilter
      simp [h1, h2, hq]
  · intro hmeta t
    exact regexMatchI_eq_containsCI q t hmeta

theorem C2_witness :
    ((listingOut c2wListing ∈ list_listings c2wStore (some "ell") none 20 ↔
      (c2wListing.status = "active" ∧ regexMatchI "ell" c2wListing.title = true)) ∧
    ((∀ c ∈ "ell".data, isRegexMeta c = false) →
      ∀ t : String, regexMatchI "ell" t = containsCI "ell" t)) :=
  C2_q_is_regex_not_containment c2wStore "ell" 20 c2wListing (by decide) (by decide) (by decide)
    (by decide)

/-- Claim C2, counterexample to the claim as stated: the pattern "a.c" is not
literally contained in the title "abc", yet the listing is returned, because
the title clause is a regular-expression match, not plain containment. -/
theorem C2_counterexample :
    list_listings c2store (some "a.c") none 20 = [listingOut c2listing] ∧
    containsCI "a.c" (listingOut c2listing).title = false :=
  ⟨by rfl, by rfl⟩

/-- Claim C3: for every store and well-formed or not identifiers, `get_thread`
returns the same answer whether the two users are passed as (a, b) or (b, a):
the filter matches the symmetric pair in either direction. -/
theorem C3_thread_direction_symmetric (s : Store) (L a b : String) (lim : Nat) :
    get_thread s L a b lim = get_thread s L b a lim := by
  have hfilt : threadFilter L a b = threadFilter L b a := by
    funext m
    unfold threadFilter
    rw [Bool.or_comm]
  unfold get_thread
  rw [hfilt]
  cases isValidObjectId L <;> cases isValidObjectId a <;> cases isValidObjectId b <;> rfl

/-- Claim C4: saving a fresh well-formed pair answers `created` with the new
entry's id; immediately saving the same pair again answers the distinct
`already_saved` no-op, changes nothing, and exactly one record for the pair is
stored. -/
theorem C4_save_idempotent (s : Store) (uid lid : String)
    (hu : isValidObjectId uid = true) (hl : isValidObjectId lid = true)
    (h0 : s.saved.find? (fun e => e.user_id == uid && e.listing_id == lid) = none) :
    (save_listing s ⟨uid, lid⟩).1 = .ok (.created (assignedId s.counter)) ∧
    save_listing ((save_listing s ⟨uid, lid⟩).2) ⟨uid, lid⟩ =
      (.ok .already_saved, (save_listing s ⟨uid, lid⟩).2) ∧
    (((save_listing s ⟨uid, lid⟩).2).saved.filter
      (fun e => e.user_id == uid && e.listing_id == lid)).length = 1 := by
  have hstep : save_listing s ⟨uid, lid⟩ =
      (.ok (.created (assignedId s.counter)),
        { s with saved := s.saved ++ [⟨assignedId s.counter, uid, lid⟩],
                 counter := s.counter + 1 }) := by
    simp [save_listing, hu, hl, h0]
  refine ⟨by rw [hstep], ?_, ?_⟩
  · rw [hstep]
    simp only [save_listing, hu, hl, Bool.and_self, Bool.not_true, Bool.false_eq_true,
      if_false]
    rw [List.find?_append, h0]
    simp
  · rw [hstep]
    have hnil : s.saved.filter (fun e => e.user_id == uid && e.listing_id == lid) = [] :=
      List.filter_eq_nil_iff.mpr (List.find?_eq_none.mp h0)
    simp [List.filter_append, hnil]

theorem C4_witness :
    (save_listing emptyStore ⟨oidA, oidB⟩).1 = .ok (.created (assignedId emptyStore.counter)) ∧
    save_listing ((save_listing emptyStore ⟨oidA, oidB⟩).2) ⟨oidA, oidB⟩ =
      (.ok .already_saved, (save_listing emptyStore ⟨oidA, oidB⟩).2) ∧
    (((save_listing emptyStore ⟨oidA, oidB⟩).2).saved.filter
      (fun e => e.user_id == oidA && e.listing_id == oidB)).length = 1 :=
  C4_save_idempotent emptyStore oidA oidB (by decide) (by decide) (by rfl)

/-- Claim C5: a malformed identifier in any position of any identifier-accepting
handler yields `InvalidArgument` (HTTP 400), with the returned state equal to
the input state and the whole answer independent of the store contents (the
functional rendering of "no store access before failing"). -/
theorem C5_invalid_id_rejected_before_store (s : Store) (bad other : String)
    (title descr cat lt content : String) (price : Int)
    (loc : Option String) (imgs : Option (List String)) (lim : Nat)
    (h : isValidObjectId bad = false) :
    create_listing s ⟨bad, title, descr, price, cat, lt, loc, imgs⟩ =
      (.error ⟨400, "Invalid user id"⟩, s) ∧
    save_listing s ⟨bad, other⟩ = (.error ⟨400, "Invalid ids"⟩, s) ∧
    save_listing s ⟨other, bad⟩ = (.error ⟨400, "Invalid ids"⟩, s) ∧
    get_saved s bad = .error ⟨400, "Invalid user id"⟩ ∧
    send_message s ⟨bad, other, other, content⟩ = (.error ⟨400, "Invalid ids"⟩, s) ∧
    send_message s ⟨other, bad, other, content⟩ = (.error ⟨400, "Invalid ids"⟩, s) ∧
    send_message s ⟨other, other, bad, content⟩ = (.error ⟨400, "Invalid ids"⟩, s) ∧
    get_thread s bad other other lim = .error ⟨400, "Invalid ids"⟩ ∧
    get_thread s other bad other lim = .error ⟨400, "Invalid ids"⟩ ∧
    get_thread s other other bad lim = .error ⟨400, "Invalid ids"⟩ := by
  refine ⟨?_, ?_, ?_, ?_, ?_, ?_, ?_, ?_, ?_, ?_⟩ <;>
    simp [create_listing, save_listing, get_saved, send_message, get_thread, h]

theorem C5_witness :
    create_listing emptyStore ⟨"zz", "t", "d", 1, "c", "sale", none, none⟩ =
      (.error ⟨400, "Invalid user id"⟩, emptyStore) ∧
    save_listing emptyStore ⟨"zz", oidA⟩ = (.error ⟨400, "Invalid ids"⟩, emptyStore) ∧
    save_listing emptyStore ⟨oidA, "zz"⟩ = (.error ⟨400, "Invalid ids"⟩, emptyStore) ∧
    get_saved emptyStore "zz" = .error ⟨400, "Invalid user id"⟩ ∧
    send_message emptyStore ⟨"zz", oidA, oidA, "hey"⟩ = (.error ⟨400, "Invalid ids"⟩, emptyStore) ∧
    send_message emptyStore ⟨oidA, "zz", oidA, "hey"⟩ = (.error ⟨400, "Invalid ids"⟩, emptyStore) ∧
    send_message emptyStore ⟨oidA, oidA, "zz", "hey"⟩ = (.error ⟨400, "Invalid ids"⟩, emptyStore) ∧
    get_thread emptyStore "zz" oidA oidA 7 = .error ⟨400, "Invalid ids"⟩ ∧
    get_thread emptyStore oidA "zz" oidA 7 = .error ⟨400, "Invalid ids"⟩ ∧
    get_thread emptyStore oidA oidA "zz" 7 = .error ⟨400, "Invalid ids"⟩ :=
  C5_invalid_id_rejected_before_store emptyStore "zz" oidA "t" "d" "c" "sale" "hey" 1 none none 7
    (by decide)

/-- Claim C6: a well-formed but absent listing id makes `send_message` fail with
`NotFound` (HTTP 404) and leave the store (in particular the message
collection) unchanged. -/
theorem C6_send_message_missing_listing (s : Store) (L f t content : String)
    (hL : isValidObjectId L = true) (hf : isValidObjectId f = true)
    (ht : isValidObjectId t = true)
    (habs : s.listing.find? (fun d => d._id == L) = none) :
    send_message s ⟨L, f, t, content⟩ = (.error ⟨404, "Listing not found"⟩, s) := by
  simp [send_message, hL, hf, ht, habs]

theorem C6_witness :
    send_message emptyStore ⟨oidA, oidB, oidC, "hi"⟩ = (.error ⟨404, "Listing not found"⟩, emptyStore) :=
  C6_send_message_missing_listing emptyStore oidA oidB oidC "hi"
    (by decide) (by decide) (by decide) (by rfl)

/-- Claim C7 (amended): with a non-empty `category` every returned record's
category equals it exactly, and every `list_listings` answer (any `q`, any
`category`) contains only records with status "active". -/
theorem C7_category_exact_and_only_active (s : Store) (q : Option String) (c : String)
    (cat : Option String) (lim : Nat) (hc : c ≠ "") :
    (∀ x ∈ list_listings s q (some c) lim, x.category = c) ∧
    (∀ x ∈ list_listings s q cat lim, x.status = "active") := by
  constructor
  · intro x hx
    unfold list_listings at hx
    obtain ⟨d, hd, rfl⟩ := List.mem_map.mp hx
    have hp := (List.mem_filter.mp (List.take_subset lim _ hd)).2
    unfold listingFilter at hp
    simp only [Bool.and_eq_true, Bool.or_eq_true, beq_iff_eq] at hp
    obtain ⟨⟨-, hcat⟩, -⟩ := hp
    cases hcat with
    | inl h1 => exact absurd h1 hc
    | inr h1 => exact h1
  · intro x hx
    unfold list_listings at hx
    obtain ⟨d, hd, rfl⟩ := List.mem_map.mp hx
    have hp := (List.mem_filter.mp (List.take_subset lim _ hd)).2
    unfold listingFilter at hp
    simp only [Bool.and_eq_true, beq_iff_eq] at hp
    exact hp.1.1

theorem C7_witness :
    (∀ x ∈ list_listings c7store none (some "books") 20, x.category = "books") ∧
    (∀ x ∈ list_listings c7store none none 20, x.status = "active") :=
  C7_category_exact_and_only_active c7store none "books" none 20 (by decide)

/-- Claim C7, counterexample to the claim as stated: called with the category
value "", `list_listings` drops the clause entirely and returns a record whose
category is "books", not "". -/
theorem C7_counterexample :
    list_listings c7store none (some "") 20 = [listingOut c7listing] ∧
    (listingOut c7listing).category ≠ "" :=
  ⟨by rfl, by decide⟩

/-- Claim C8 (amended): registering an email already present fails with a 400
client error carrying detail "Email already registered" — the same HTTP status
class the code uses for malformed input, distinguishable only by the detail
text — and inserts nothing. -/
theorem C8_duplicate_email_rejected (s : Store) (b : RegisterBody) (u : UserDoc)
    (hu : u ∈ s.user) (he : u.email = b.email) :
    (register s b).1 = .error ⟨400, "Email already registered"⟩ ∧ (register s b).2 = s := by
  cases hfind : s.user.find? (fun x => x.email == b.email) with
  | none =>
    exfalso
    have hne := List.find?_eq_none.mp hfind u hu
    simp [he] at hne
  | some v =>
    unfold register
    rw [hfind]
    exact ⟨rfl, rfl⟩

theorem C8_witness :
    (register c8store c8body).1 = .error ⟨400, "Email already registered"⟩ ∧
    (register c8store c8body).2 = c8store :=
  C8_duplicate_email_rejected c8store c8body c8user (by decide) (by rfl)

/-- Claim C8, counterexample to the claim as stated: the duplicate-email
failure carries HTTP status 400, the very status the code uses for malformed
identifiers, so it is not surfaced as a class distinct from `InvalidArgument`
(HTTP 409 `Conflict` is never produced). -/
theorem C8_counterexample :
    (register c8store c8body).1 = .error ⟨400, "Email already registered"⟩ ∧
    (save_listing c8store ⟨"zz", "zz"⟩).1 = .error ⟨400, "Invalid ids"⟩ :=
  ⟨by rfl, by rfl⟩

/-- Claim C9 (amended): when the owner id is well-formed and present and the
body passes the `schemas.Listing` constraints (title, description, price,
images), `create_listing` succeeds and stores the supplied `listing_type` if
it is one of "sale", "service", "rent", and silently stores "sale"
otherwise. -/
theorem C9_listing_type_silently_normalized (s : Store) (b : CreateListingBody) (u : UserDoc)
    (hv : isValidObjectId b.user_id = true)
    (hfind : s.user.find? (fun x => x._id == b.user_id) = some u)
    (hschema : listingSchemaValid b = true) :
    (create_listing s b).1 = .ok ⟨assignedId s.counter⟩ ∧
    ∃ d : ListingDoc, (create_listing s b).2.listing = s.listing ++ [d] ∧
      d.listing_type =
        (if b.listing_type = "sale" ∨ b.listing_type = "service" ∨ b.listing_type = "rent"
         then b.listing_type else "sale") := by
  have hstep : create_listing s b =
      (.ok ⟨assignedId s.counter⟩,
        { s with
            listing := s.listing ++
              [⟨assignedId s.counter, b.user_id, b.title, b.description, b.price,
                b.category,
                (if ["sale", "service", "rent"].contains b.listing_type
                 then b.listing_type else "sale"),
                b.location, b.images.getD [], "active"⟩],
            counter := s.counter + 1 }) := by
    simp [create_listing, hv, hfind, hschema]
  refine ⟨by rw [hstep], ?_⟩
  refine ⟨_, by rw [hstep], ?_⟩
  by_cases hmem : b.listing_type = "sale" ∨ b.listing_type = "service" ∨ b.listing_type = "rent"
  · rw [if_pos hmem, if_pos]
    simpa [List.contains] using hmem
  · rw [if_neg hmem, if_neg]
    simpa [List.contains] using hmem

theorem C9_witness :
    (create_listing c9store c9body).1 = .ok ⟨assignedId c9store.counter⟩ ∧
    ∃ d : ListingDoc, (create_listing c9store c9body).2.listing = c9store.listing ++ [d] ∧
      d.listing_type =
        (if c9body.listing_type = "sale" ∨ c9body.listing_type = "service" ∨
            c9body.listing_type = "rent"
         then c9body.listing_type else "sale") :=
  C9_listing_type_silently_normalized c9store c9body c9user (by decide) (by rfl) (by decide)

/-- Claim C9, counterexample to the claim as stated: a request whose owner is
well-formed and exists and whose `listing_type` is the out-of-enum "lease" is
nevertheless not stored — its negative price makes the `ListingSchema(...)`
construction raise a `ValidationError`, and the store comes back unchanged. -/
theorem C9_counterexample :
    isValidObjectId c9xbody.user_id = true ∧
    (c9store.user.find? (fun x => x._id == c9xbody.user_id)).isSome = true ∧
    c9xbody.listing_type = "lease" ∧
    create_listing c9store c9xbody = (.error ⟨500, "ValidationError"⟩, c9store) :=
  ⟨by decide, by rfl, by rfl, by rfl⟩

/-- Claim C10: `list_listings` treats an empty-string `q` exactly like an absent
`q`, and an empty-string `category` exactly like an absent `category`. -/
theorem C10_empty_string_params_absent (s : Store) (q cat : Option String) (lim : Nat) :
    list_listings s (some "") cat lim = list_listings s none cat lim ∧
    list_listings s q (some "") lim = list_listings s q none lim := by
  constructor
  · have hf : listingFilter (some "") cat = listingFilter none cat := by
      funext d
      unfold listingFilter
      simp
    unfold list_listings
    rw [hf]
  · have hf : listingFilter q (some "") = listingFilter q none := by
      funext d
      unfold listingFilter
      simp
    unfold list_listings
    rw [hf]

end FluxMarket
